import Mathlib

/-!
Verification of the kupintar-learning-hub session-and-realtime
synchronization core against its specification.

The development shallowly embeds the two source modules that carry the
core logic:

* src/contexts/AuthContext.tsx — session lifecycle (one-shot init guard,
  30-second timeout, auth-event listener, signOut);
* src/pages/RoomPage.tsx — room snapshot load, the realtime subscription
  effect, the message INSERT handler, and the send guard.

Asynchronous callbacks become explicit step functions over explicit state
records; the cooperative single-threaded runtime is modelled by applying
steps one at a time.  Opaque string ids and ISO timestamps are abstracted
to Nat (only equality of ids and ordering of timestamps matter to the
code under study).
-/

/-- Denormalized profile data attached to a live-delivered message: the
INSERT handler in RoomPage.tsx selects only full_name and avatar_url from
the profiles table. -/
structure MessageProfile where
  full_name : String
  avatar_url : String
deriving Repr, DecidableEq

/-- Message row, from the data model in RoomPage.tsx (id, room_id, user_id,
content, created_at, optional joined profile). -/
structure Message where
  id : Nat
  room_id : Nat
  user_id : Nat
  content : String
  created_at : Nat
  profile : Option MessageProfile
deriving Repr, DecidableEq

/-- Embeds the messages-channel INSERT callback of RoomPage.tsx
(lines 115 to 128): the incoming payload row is appended at the tail of the
current list, with its profile field replaced by the result of the
follow-up profiles lookup (none when the lookup failed or returned no row,
mirroring that the destructured data is null and null-or-undefined becomes
undefined). -/
def insertHandler (prev : List Message) (incoming : Message)
    (profileLookup : Option MessageProfile) : List Message :=
  prev ++ [{ incoming with profile := profileLookup }]

/-- Boolean check that a message list is sorted by ascending created_at. -/
def timeSorted : List Message → Bool
  | [] => true
  | [_] => true
  | a :: b :: rest => a.created_at ≤ b.created_at && timeSorted (b :: rest)

/-- Folds a sequence of live INSERT events (each an incoming row paired
with its profile-lookup result) over a starting snapshot list, exactly as
repeated invocations of the INSERT callback do. -/
def mergeLive (snapshot : List Message)
    (events : List (Message × Option MessageProfile)) : List Message :=
  events.foldl (fun acc e => insertHandler acc e.1 e.2) snapshot

/-- Concrete message with the earliest timestamp, used in counterexamples
and witnesses. -/
def msgA : Message :=
  { id := 1, room_id := 9, user_id := 4, content := "alpha",
    created_at := 100, profile := none }

/-- Concrete message with the middle timestamp. -/
def msgB : Message :=
  { id := 2, room_id := 9, user_id := 5, content := "beta",
    created_at := 200, profile := none }

/-- Concrete message with the latest timestamp. -/
def msgC : Message :=
  { id := 3, room_id := 9, user_id := 6, content := "gamma",
    created_at := 300, profile := none }

/-- C1 counterexample: delivering a live event whose id is already present
in the list does change the visible list — the handler appends
unconditionally, so the id 1 row ends up twice. -/
theorem insert_duplicate_counterexample :
    insertHandler [msgA] msgA none ≠ [msgA] ∧
    (insertHandler [msgA] msgA none).countP (fun m => m.id == 1) = 2 := by
  decide

/-- C1 (amended): merging a live message event always adds one more entry
carrying the incoming id, whether or not that id is already present; the
handler performs no id-based deduplication, so duplicate delivery of an id
grows the list. -/
theorem insert_always_appends_count (prev : List Message) (inc : Message)
    (lookup : Option MessageProfile) :
    (insertHandler prev inc lookup).countP (fun m => m.id == inc.id)
      = prev.countP (fun m => m.id == inc.id) + 1 := by
  simp [insertHandler, List.countP_append, List.countP_cons]

/-- C8: when the follow-up profile lookup fails or returns no row (lookup
result none), the message is still appended — it is a member of the
resulting list, with an empty profile, and the list grows by exactly one;
the message is never dropped. -/
theorem insert_profile_lookup_failure (prev : List Message) (inc : Message) :
    { inc with profile := none } ∈ insertHandler prev inc none ∧
    (insertHandler prev inc none).length = prev.length + 1 := by
  constructor
  · simp [insertHandler]
  · simp [insertHandler]

/-- C6 counterexample: three messages with distinct ids and strictly
increasing timestamps, delivered live in the arrival order gamma, alpha,
beta, are presented in arrival order, not timestamp order — the merged
list is not ascending by created_at. -/
theorem live_out_of_order_counterexample :
    msgA.created_at < msgB.created_at ∧ msgB.created_at < msgC.created_at ∧
    msgA.id ≠ msgB.id ∧ msgA.id ≠ msgC.id ∧ msgB.id ≠ msgC.id ∧
    timeSorted (mergeLive [] [(msgC, none), (msgA, none), (msgB, none)])
      = false := by
  decide

/-- Helper: appending at the tail an element whose timestamp dominates the
list keeps the list time-sorted. -/
theorem timeSorted_append_singleton (l : List Message) (x : Message)
    (hs : timeSorted l = true)
    (hle : ∀ m ∈ l, m.created_at ≤ x.created_at) :
    timeSorted (l ++ [x]) = true := by
  induction l with
  | nil => simp [timeSorted]
  | cons a rest ih =>
      cases rest with
      | nil =>
          simp [timeSorted]
          exact hle a (by simp)
      | cons b rest2 =>
          simp only [timeSorted, Bool.and_eq_true, decide_eq_true_eq] at hs
          have h1 := hs.1
          have h2 := hs.2
          have ihr := ih h2 (fun m hm => hle m (List.mem_cons_of_mem a hm))
          simp only [List.cons_append, timeSorted, Bool.and_eq_true,
            decide_eq_true_eq]
          exact ⟨h1, by simpa using ihr⟩

/-- C6 (amended): the handler appends at the tail, so the merged view stays
in ascending timestamp order only when events reach it in timestamp order —
merging an incoming message whose timestamp is at least every timestamp
already in a time-sorted list yields a time-sorted list. -/
theorem insert_tail_preserves_order (prev : List Message) (inc : Message)
    (lookup : Option MessageProfile)
    (hs : timeSorted prev = true)
    (hle : ∀ m ∈ prev, m.created_at ≤ inc.created_at) :
    timeSorted (insertHandler prev inc lookup) = true := by
  exact timeSorted_append_singleton prev _ hs hle

/-- Witness for the amended C6 theorem at a concrete input. -/
theorem insert_tail_preserves_order_witness :
    timeSorted [msgA] = true ∧
    (∀ m ∈ [msgA], m.created_at ≤ msgB.created_at) ∧
    timeSorted (insertHandler [msgA] msgB none) = true :=
  ⟨by decide, by decide,
    insert_tail_preserves_order [msgA] msgB none (by decide) (by decide)⟩

/-- Durable user profile record, from the data model used by
AuthContext.tsx (UserProfile from lib/auth). -/
structure UserProfile where
  id : Nat
  username : String
  full_name : String
  avatar_url : String
  created_at : Nat
deriving Repr, DecidableEq

/-- Observable state of the AuthProvider component: the four useState
cells (user, profile, loading, error) plus the initialized useRef guard
flag. -/
structure AuthState where
  user : Option Nat
  profile : Option UserProfile
  loading : Bool
  error : Option String
  initialized : Bool
deriving Repr, DecidableEq

/-- State at first render of AuthProvider: user null, profile null,
loading true, error null, initialized false. -/
def initialAuthState : AuthState :=
  { user := none, profile := none, loading := true, error := none,
    initialized := false }

/-- Embeds the onAuthStateChange callback of AuthContext.tsx
(lines 127 to 143): set user from the session; on SIGNED_IN with a user,
schedule a deferred profile fetch (the returned Bool); with no user, clear
the profile; finally force loading to false when the initialized flag is
set. -/
def onAuthStateChange (s : AuthState) (event : String)
    (sessionUser : Option Nat) : AuthState × Bool :=
  let s1 := { s with user := sessionUser }
  let step2 :=
    match sessionUser with
    | some _ => (s1, event == "SIGNED_IN")
    | none => ({ s1 with profile := none }, false)
  if s.initialized then
    ({ step2.1 with loading := false }, step2.2)
  else
    step2

/-- Phase of the one-shot asynchronous initAuth sequence of
AuthContext.tsx, tracking which await it is suspended at. -/
inductive InitPhase where
  | notStarted
  | awaitingSession
  | awaitingProfile (uid : Nat)
  | done
deriving Repr, DecidableEq

/-- Whole-provider machine: component state plus the init-sequence phase,
whether the scheduled 30-second timeout is still armed (not yet cleared
and not yet fired), and ghost counters of network calls issued (session
fetches by getSession, profile resolutions by createOrUpdateProfile). -/
structure AuthMachine where
  st : AuthState
  phase : InitPhase
  timeoutArmed : Bool
  sessionFetches : Nat
  profileFetches : Nat
deriving Repr, DecidableEq

/-- Machine at first render, before the mount effect has run. -/
def initialMachine : AuthMachine :=
  { st := initialAuthState, phase := InitPhase.notStarted,
    timeoutArmed := false, sessionFetches := 0, profileFetches := 0 }

/-- Events driving the AuthProvider machine.  mount is the useEffect body
(guard, flag set, listener registration, start of initAuth up to the
getSession await, scheduling the 30-second timeout); sessionResolved is
the continuation after getSession (with its user, or a failure cause);
profileResolved is the continuation after createOrUpdateProfile inside
fetchProfile (none covers both a null result and a thrown error, which
fetchProfile catches internally); timeoutFired is the 30-second timer
callback; listener is a delivered auth-state-change notification. -/
inductive AuthStep where
  | mount
  | sessionResolved (u : Option Nat) (failure : Option String)
  | profileResolved (res : Option UserProfile)
  | timeoutFired
  | listener (event : String) (u : Option Nat)
deriving Repr, DecidableEq

/-- Embeds the AuthContext.tsx effect and its continuations (lines 80 to
152) as one step function.  Each branch mirrors the corresponding source
region: the initialized guard at lines 81 and 82, the initAuth body at
lines 86 to 122 split at its awaits, the timeout callback at lines 91 to
95, and the listener at lines 127 to 143.  Steps that have no pending
continuation to run (for example a second sessionResolved) leave the
machine unchanged. -/
def stepAuth (m : AuthMachine) : AuthStep → AuthMachine
  | AuthStep.mount =>
      if m.st.initialized then m
      else
        { m with
          st := { m.st with initialized := true },
          phase := InitPhase.awaitingSession,
          timeoutArmed := true,
          sessionFetches := m.sessionFetches + 1 }
  | AuthStep.sessionResolved u failure =>
      match m.phase with
      | InitPhase.awaitingSession =>
          match failure with
          | some cause =>
              { m with
                st := { m.st with
                        user := none, profile := none,
                        error := some ("Authentication failed: " ++ cause),
                        loading := false },
                phase := InitPhase.done, timeoutArmed := false }
          | none =>
              match u with
              | some uid =>
                  { m with
                    st := { m.st with user := some uid },
                    phase := InitPhase.awaitingProfile uid,
                    profileFetches := m.profileFetches + 1 }
              | none =>
                  { m with
                    st := { m.st with user := none, loading := false },
                    phase := InitPhase.done, timeoutArmed := false }
      | _ => m
  | AuthStep.profileResolved res =>
      match m.phase with
      | InitPhase.awaitingProfile _ =>
          match res with
          | some p =>
              { m with
                st := { m.st with
                        profile := some p, error := none,
                        loading := false },
                phase := InitPhase.done, timeoutArmed := false }
          | none =>
              { m with
                st := { m.st with
                        profile := none,
                        error := some "Failed to load profile",
                        loading := false },
                phase := InitPhase.done, timeoutArmed := false }
      | _ => m
  | AuthStep.timeoutFired =>
      if m.timeoutArmed then
        { m with
          st := { m.st with
                  error :=
                    some "Authentication timed out. Please refresh the page.",
                  loading := false },
          timeoutArmed := false }
      else m
  | AuthStep.listener event u =>
      if m.st.initialized then
        { m with st := (onAuthStateChange m.st event u).1 }
      else m

/-- Runs the machine from first render over a sequence of events. -/
def runAuth (steps : List AuthStep) : AuthMachine :=
  steps.foldl stepAuth initialMachine

/-- Observable auth state at time t milliseconds in the run where the
mount effect fires at time 0 and the session fetch never resolves: the
only pending callback is the 30000 ms timeout scheduled by initAuth, which
the runtime fires exactly when its delay elapses. -/
def authStateAtTime (t : Nat) : AuthState :=
  let m := stepAuth initialMachine AuthStep.mount
  if 30000 ≤ t then (stepAuth m AuthStep.timeoutFired).st else m.st

/-- Helper: the listener callback never changes the initialized flag. -/
theorem onAuthStateChange_initialized (s : AuthState) (event : String)
    (u : Option Nat) :
    ((onAuthStateChange s event u).1).initialized = s.initialized := by
  cases u <;> cases h : s.initialized <;> simp [onAuthStateChange, h]

/-- Helper: every machine step preserves a set initialized flag (no step
ever unsets it). -/
theorem stepAuth_preserves_initialized (m : AuthMachine) (e : AuthStep)
    (h : m.st.initialized = true) : (stepAuth m e).st.initialized = true := by
  obtain ⟨st, phase, armed, sf, pf⟩ := m
  cases e with
  | mount => simp_all [stepAuth]
  | sessionResolved u failure =>
      cases phase <;> cases failure <;> cases u <;> simp_all [stepAuth]
  | profileResolved res =>
      cases phase <;> cases res <;> simp_all [stepAuth]
  | timeoutFired =>
      cases armed <;> simp_all [stepAuth]
  | listener event u =>
      simp_all [stepAuth, onAuthStateChange_initialized]

/-- Helper: running any further events from a machine whose initialized
flag is set keeps the flag set. -/
theorem foldl_preserves_initialized (steps : List AuthStep) (m : AuthMachine)
    (h : m.st.initialized = true) :
    ((steps.foldl stepAuth m).st.initialized) = true := by
  induction steps generalizing m with
  | nil => exact h
  | cons e rest ih => exact ih _ (stepAuth_preserves_initialized m e h)

/-- C3: the initialization sequence is single-shot.  A second mount event,
issued at any later point of any run that has already mounted, leaves the
machine exactly unchanged (so its network steps run zero additional
times), and after mounting twice in a row the session fetch has been
issued exactly once and no profile fetch was triggered by the second
mount. -/
theorem auth_init_single_shot :
    (∀ steps : List AuthStep,
      stepAuth (runAuth (AuthStep.mount :: steps)) AuthStep.mount
        = runAuth (AuthStep.mount :: steps)) ∧
    (runAuth [AuthStep.mount, AuthStep.mount]).sessionFetches = 1 ∧
    (runAuth [AuthStep.mount, AuthStep.mount]).profileFetches = 0 := by
  refine ⟨?_, by decide, by decide⟩
  intro steps
  have hm : (stepAuth initialMachine AuthStep.mount).st.initialized = true := by
    decide
  have h1 : (runAuth (AuthStep.mount :: steps)).st.initialized = true := by
    simpa [runAuth, List.foldl_cons] using
      foldl_preserves_initialized steps _ hm
  simp [stepAuth, h1]

/-- C2 counterexample: directly after the mount event the initialization
sequence is still in progress (phase is awaitingSession, loading is still
true), yet a listener event delivered at that point forces loading to
false while initialization has still not completed. -/
theorem listener_early_loading_counterexample :
    (runAuth [AuthStep.mount]).phase ≠ InitPhase.done ∧
    (runAuth [AuthStep.mount]).st.loading = true ∧
    (runAuth [AuthStep.mount,
      AuthStep.listener "SIGNED_IN" (some 7)]).phase ≠ InitPhase.done ∧
    (runAuth [AuthStep.mount,
      AuthStep.listener "SIGNED_IN" (some 7)]).st.loading = false := by
  decide

/-- C2 (amended): the listener forces loading to false whenever the
initialized guard flag is set, and the mount effect sets that flag at the
start of initialization, before the listener is even registered — so after
the mount event every delivered listener event leaves loading false,
whether or not initialization has completed. -/
theorem listener_forces_loading_false (m : AuthMachine) (event : String)
    (u : Option Nat) :
    ((stepAuth (stepAuth m AuthStep.mount)
        (AuthStep.listener event u)).st.loading) = false := by
  cases h : m.st.initialized
  · cases u <;> simp [stepAuth, h, onAuthStateChange]
  · cases u <;> simp [stepAuth, h, onAuthStateChange]

/-- Helper: one step preserves the invariant that a machine whose init
phase is done has a disarmed timeout (initAuth clears the timeout on every
path that completes, and a fired timeout disarms itself). -/
theorem stepAuth_done_disarmed (m : AuthMachine) (e : AuthStep)
    (h : m.phase = InitPhase.done → m.timeoutArmed = false) :
    (stepAuth m e).phase = InitPhase.done →
      (stepAuth m e).timeoutArmed = false := by
  obtain ⟨st, phase, armed, sf, pf⟩ := m
  cases e with
  | mount => cases hi : st.initialized <;> simp_all [stepAuth]
  | sessionResolved u failure =>
      cases phase <;> cases failure <;> cases u <;> simp_all [stepAuth]
  | profileResolved res =>
      cases phase <;> cases res <;> simp_all [stepAuth]
  | timeoutFired =>
      cases armed <;> simp_all [stepAuth]
  | listener event u =>
      cases hi : st.initialized <;> simp_all [stepAuth]

/-- Helper: the done-implies-disarmed invariant holds of every reachable
machine. -/
theorem runAuth_done_disarmed (steps : List AuthStep) :
    (runAuth steps).phase = InitPhase.done →
      (runAuth steps).timeoutArmed = false := by
  suffices h : ∀ (l : List AuthStep) (m : AuthMachine),
      (m.phase = InitPhase.done → m.timeoutArmed = false) →
      ((l.foldl stepAuth m).phase = InitPhase.done →
        (l.foldl stepAuth m).timeoutArmed = false) by
    exact h steps initialMachine (by decide)
  intro l
  induction l with
  | nil => intro m hm; exact hm
  | cons e rest ih =>
      intro m hm
      exact ih _ (stepAuth_done_disarmed m e hm)

/-- C4: in the run where the session fetch never resolves, the state keeps
loading true and error unset at every time strictly before 30000 ms, and
at 30000 ms the timeout has set the timed-out error and forced loading
false; and in any run whose initialization has completed, firing the
timeout leaves the machine exactly unchanged (the cleared timeout has no
effect on state). -/
theorem auth_timeout_boundary :
    (∀ t : Nat, t < 30000 →
      (authStateAtTime t).loading = true ∧ (authStateAtTime t).error = none) ∧
    (authStateAtTime 30000).loading = false ∧
    (authStateAtTime 30000).error
      = some "Authentication timed out. Please refresh the page." ∧
    (∀ steps : List AuthStep, (runAuth steps).phase = InitPhase.done →
      stepAuth (runAuth steps) AuthStep.timeoutFired = runAuth steps) := by
  refine ⟨?_, by decide, by decide, ?_⟩
  · intro t ht
    have hlt : ¬ (30000 ≤ t) := by omega
    simp only [authStateAtTime, if_neg hlt]
    decide
  · intro steps h
    have harm := runAuth_done_disarmed steps h
    simp [stepAuth, harm]

/-- Witness for the timeout-boundary theorem: the concrete time 29999 ms
is before the boundary and has loading still true and no error, and the
concrete completed run (mount, then the session resolving with no user)
is unaffected by a later timeout firing. -/
theorem auth_timeout_boundary_witness :
    ((authStateAtTime 29999).loading = true ∧
      (authStateAtTime 29999).error = none) ∧
    stepAuth (runAuth [AuthStep.mount, AuthStep.sessionResolved none none])
        AuthStep.timeoutFired
      = runAuth [AuthStep.mount, AuthStep.sessionResolved none none] :=
  ⟨auth_timeout_boundary.1 29999 (by decide),
    auth_timeout_boundary.2.2.2
      [AuthStep.mount, AuthStep.sessionResolved none none] (by decide)⟩

/-- Embeds AuthContext.signOut (lines 74 to 78): await the external
sign-out operation, then unconditionally clear user and profile.
Modelled from the spec for the part outside src: the external operation
(signOut of lib/auth) has interface type signOut() -> void per section 6,
and per section 4.1 its outcome is awaited but not branched on, so it is
modelled as reporting its outcome in a returned value rather than by
throwing. -/
def signOut (s : AuthState) (externalOutcome : Except String Unit) :
    AuthState :=
  match externalOutcome with
  | Except.ok _ => { s with user := none, profile := none }
  | Except.error _ => { s with user := none, profile := none }

/-- C9: after signOut completes, the locally held user and profile are
both none, for every prior state and every outcome of the external
sign-out call, failure included. -/
theorem sign_out_clears_locally (s : AuthState) (r : Except String Unit) :
    (signOut s r).user = none ∧ (signOut s r).profile = none := by
  cases r <;> simp [signOut]

/-- Room row, from the data model in RoomPage.tsx. -/
structure Room where
  id : Nat
  name : String
  subject : String
  description : String
  creator_id : Nat
  max_members : Nat
deriving Repr, DecidableEq

/-- Room member row joined with its profile, from the data model in
RoomPage.tsx. -/
structure RoomMember where
  id : Nat
  room_id : Nat
  user_id : Nat
  role : String
  joined_at : Nat
  profile : Option UserProfile
deriving Repr, DecidableEq

/-- Local state of the RoomPage component touched by the snapshot load:
the room, members, messages and isMember useState cells, the loading flag,
and ghost flags recording a redirect to home and an error toast. -/
structure PageState where
  room : Option Room
  members : List RoomMember
  messages : List Message
  isMember : Bool
  loading : Bool
  navigatedHome : Bool
  errorToast : Bool
deriving Repr, DecidableEq

/-- Truth of an Except being the error case. -/
def isErr {ε α : Type} : Except ε α → Bool
  | Except.error _ => true
  | Except.ok _ => false

/-- Embeds loadRoomData of RoomPage.tsx (lines 58 to 98): guard on missing
roomId or user, then Promise.all over the four reads (room metadata,
member list, message history, membership check).  A rejection of any read
rejects the whole Promise.all and lands in the catch branch, which only
shows an error toast; an absent room redirects home; only the
all-successful, room-present path assigns the four state cells.  The
finally branch clears loading on every non-guard path. -/
def loadRoomData (s : PageState) (roomId : Option Nat) (user : Option Nat)
    (roomRes : Except String (Option Room))
    (membersRes : Except String (List RoomMember))
    (messagesRes : Except String (List Message))
    (membershipRes : Except String Bool) : PageState :=
  if roomId.isNone || user.isNone then s
  else
    match roomRes, membersRes, messagesRes, membershipRes with
    | Except.ok roomData, Except.ok membersData,
      Except.ok messagesData, Except.ok membershipStatus =>
        match roomData with
        | none => { s with loading := false, navigatedHome := true }
        | some r =>
            { s with
              room := some r, members := membersData,
              messages := messagesData, isMember := membershipStatus,
              loading := false }
    | _, _, _, _ => { s with loading := false, errorToast := true }

/-- C5: the snapshot load is all-or-nothing over its four reads — when any
one of them fails, none of the room, members, messages or isMember cells
is updated (no partial snapshot is merged). -/
theorem snapshot_all_or_nothing (s : PageState) (roomId user : Option Nat)
    (rr : Except String (Option Room))
    (mr : Except String (List RoomMember))
    (gr : Except String (List Message))
    (br : Except String Bool)
    (h : (isErr rr || isErr mr || isErr gr || isErr br) = true) :
    (loadRoomData s roomId user rr mr gr br).room = s.room ∧
    (loadRoomData s roomId user rr mr gr br).members = s.members ∧
    (loadRoomData s roomId user rr mr gr br).messages = s.messages ∧
    (loadRoomData s roomId user rr mr gr br).isMember = s.isMember := by
  cases rr <;> cases mr <;> cases gr <;> cases br <;>
    simp_all [loadRoomData, isErr] <;>
    split <;> simp

/-- Concrete room used in snapshot witnesses. -/
def roomR : Room :=
  { id := 9, name := "study", subject := "math", description := "algebra",
    creator_id := 4, max_members := 10 }

/-- Concrete page state before a snapshot load, used in witnesses. -/
def pageS : PageState :=
  { room := none, members := [], messages := [msgA], isMember := false,
    loading := true, navigatedHome := false, errorToast := false }

/-- Witness for the all-or-nothing theorem: a concrete load in which only
the message-history read fails leaves the four cells of a concrete
populated state untouched. -/
theorem snapshot_all_or_nothing_witness :
    ((isErr (Except.ok (some roomR) : Except String (Option Room)) ||
      isErr (Except.ok [] : Except String (List RoomMember)) ||
      isErr (Except.error "network" : Except String (List Message)) ||
      isErr (Except.ok true : Except String Bool)) = true) ∧
    (loadRoomData pageS (some 9) (some 4) (Except.ok (some roomR))
        (Except.ok []) (Except.error "network")
        (Except.ok true)).messages = pageS.messages :=
  ⟨by decide,
    (snapshot_all_or_nothing pageS (some 9) (some 4) (Except.ok (some roomR))
      (Except.ok []) (Except.error "network")
      (Except.ok true) (by decide)).2.2.1⟩

/-- The two realtime channels the subscription effect of RoomPage.tsx
opens, each recording the room id it is scoped to when open. -/
structure SubChannels where
  msgChannel : Option Nat
  membersChannel : Option Nat
deriving Repr, DecidableEq

/-- Embeds the body of the realtime subscription effect of RoomPage.tsx
(lines 101 to 156): with a present roomId and isMember true it opens the
messages channel and the members channel scoped to that room; otherwise
the early return leaves nothing open. -/
def runSubscriptionEffect (roomId : Option Nat) (isMember : Bool) :
    SubChannels :=
  match roomId, isMember with
  | some r, true => { msgChannel := some r, membersChannel := some r }
  | _, _ => { msgChannel := none, membersChannel := none }

/-- Lifecycle state of the subscription effect: the currently open
channels together with the current values of its two dependencies
(roomId and isMember). -/
structure SubLifecycle where
  channels : SubChannels
  roomId : Option Nat
  isMember : Bool
deriving Repr, DecidableEq

/-- Lifecycle events delivered by the React runtime to the effect of
RoomPage.tsx lines 101 to 156: a change of its dependency array (roomId,
isMember), which first runs the cleanup (removing both channels) and then
the effect body; and unmount, which runs only the cleanup. -/
inductive SubEvent where
  | depsChange (roomId : Option Nat) (isMember : Bool)
  | unmount
deriving Repr, DecidableEq

/-- One lifecycle step: on a dependency change the previous channels are
removed before the effect body decides what to open for the new values; on
unmount the channels are removed and nothing reopens. -/
def stepSub (s : SubLifecycle) : SubEvent → SubLifecycle
  | SubEvent.depsChange r m =>
      { channels := runSubscriptionEffect r m, roomId := r, isMember := m }
  | SubEvent.unmount =>
      { channels := { msgChannel := none, membersChannel := none },
        roomId := s.roomId, isMember := s.isMember }

/-- Lifecycle state at first mount: nothing open, no room, not a member. -/
def initialSub : SubLifecycle :=
  { channels := { msgChannel := none, membersChannel := none },
    roomId := none, isMember := false }

/-- Runs the subscription lifecycle over a sequence of events. -/
def runSub (events : List SubEvent) : SubLifecycle :=
  events.foldl stepSub initialSub

/-- Helper: the membership gate holds of a lifecycle state. -/
def memberGate (s : SubLifecycle) : Prop :=
  ∀ r : Nat,
    (s.channels.msgChannel = some r ∨ s.channels.membersChannel = some r) →
    s.isMember = true ∧ s.roomId = some r

/-- Helper: every lifecycle step establishes the membership gate,
whatever state it starts from. -/
theorem stepSub_memberGate (s : SubLifecycle) (e : SubEvent) :
    memberGate (stepSub s e) := by
  cases e with
  | depsChange r m =>
      intro r0 h0
      cases r with
      | none => simp [stepSub, runSubscriptionEffect] at h0
      | some rv =>
          cases m with
          | false => simp [stepSub, runSubscriptionEffect] at h0
          | true =>
              simp [stepSub, runSubscriptionEffect] at h0
              simp [stepSub, runSubscriptionEffect, h0]
  | unmount =>
      intro r0 h0
      simp [stepSub] at h0

/-- C7: in every state reachable by the subscription lifecycle, a live
channel (message topic or membership topic) is open for a room only if
isMember is currently true and that room is the current room — channels
are never open for a non-member, and a dependency change closes the old
channels before the effect body opens channels for the new values. -/
theorem subscription_member_gate (events : List SubEvent) (r : Nat)
    (h : (runSub events).channels.msgChannel = some r ∨
      (runSub events).channels.membersChannel = some r) :
    (runSub events).isMember = true ∧ (runSub events).roomId = some r := by
  suffices hg : memberGate (runSub events) from hg r h
  cases hev : events.reverse with
  | nil =>
      have : events = [] := by
        have := congrArg List.reverse hev
        simpa using this
      subst this
      intro r0 h0
      simp [runSub, initialSub] at h0
  | cons e rest =>
      have hev2 : events = rest.reverse ++ [e] := by
        have := congrArg List.reverse hev
        simpa using this
      subst hev2
      have : runSub (rest.reverse ++ [e])
          = stepSub (runSub rest.reverse) e := by
        simp [runSub, List.foldl_append]
      rw [this]
      exact stepSub_memberGate _ e

/-- Witness for the membership-gate theorem: after joining room 9 the
messages channel for room 9 is open, and the theorem yields that isMember
is true with room 9 current. -/
theorem subscription_member_gate_witness :
    ((runSub [SubEvent.depsChange (some 9) true]).channels.msgChannel
        = some 9 ∨
      (runSub [SubEvent.depsChange (some 9) true]).channels.membersChannel
        = some 9) ∧
    (runSub [SubEvent.depsChange (some 9) true]).isMember = true ∧
    (runSub [SubEvent.depsChange (some 9) true]).roomId = some 9 :=
  ⟨Or.inl (by decide),
    subscription_member_gate [SubEvent.depsChange (some 9) true] 9
      (Or.inl (by decide))⟩

/-- Local state of the RoomPage component touched by handleSendMessage:
the input field, the sending flag, a ghost flag for the error toast, and
the message list (which the handler never touches — delivery happens via
the live channel). -/
structure SendState where
  newMessage : String
  sendingMessage : Bool
  errorToast : Bool
  messages : List Message
deriving Repr, DecidableEq

/-- Embeds handleSendMessage of RoomPage.tsx (lines 158 to 184): guard on
blank (trimmed-empty) input, missing roomId, or a send already in flight;
past the guard the send is issued (the returned Bool), the input is
cleared on a non-null result, an error toast is raised on a null result or
a rejection, and the finally branch clears the sending flag. -/
def handleSendMessage (s : SendState) (roomId : Option Nat)
    (sendResult : Except String (Option Message)) : SendState × Bool :=
  if s.newMessage.trim == "" || roomId.isNone || s.sendingMessage then
    (s, false)
  else
    match sendResult with
    | Except.ok (some _) =>
        ({ s with newMessage := "", sendingMessage := false }, true)
    | Except.ok none =>
        ({ s with errorToast := true, sendingMessage := false }, true)
    | Except.error _ =>
        ({ s with errorToast := true, sendingMessage := false }, true)

/-- C10: the send operation is issued only when the trimmed input is
nonempty and no send is already in flight, and while a send is in flight
(sendingMessage true) a further send attempt performs no operation at all,
returning the state unchanged. -/
theorem send_message_guard (s : SendState) (roomId : Option Nat)
    (res : Except String (Option Message)) :
    ((handleSendMessage s roomId res).2 = true →
      s.newMessage.trim ≠ "" ∧ s.sendingMessage = false) ∧
    (s.sendingMessage = true → handleSendMessage s roomId res = (s, false)) := by
  constructor
  · intro hsent
    by_contra hng
    have hguard : (s.newMessage.trim == "" || roomId.isNone
        || s.sendingMessage) = true ∨
        (s.newMessage.trim == "" || roomId.isNone
        || s.sendingMessage) = false := by
      cases (s.newMessage.trim == "" || roomId.isNone || s.sendingMessage) <;>
        simp
    rcases hguard with hguard | hguard
    · simp [handleSendMessage, hguard] at hsent
    · simp at hguard
      exact hng ⟨hguard.1.1, hguard.2⟩
  · intro hin
    simp [handleSendMessage, hin]

/-- Concrete page state with a send already in flight, used in the
send-guard witness. -/
def sendS : SendState :=
  { newMessage := "hello", sendingMessage := true, errorToast := false,
    messages := [] }

/-- Witness for the send-guard theorem: with a send already in flight, a
second attempt with nonblank input and a valid room returns the state
unchanged and issues nothing. -/
theorem send_message_guard_witness :
    sendS.sendingMessage = true ∧
    handleSendMessage sendS (some 9) (Except.ok (some msgA))
      = (sendS, false) :=
  ⟨rfl, (send_message_guard sendS (some 9) (Except.ok (some msgA))).2 rfl⟩
